import Mathlib

/-!
Verification of the gas-glide-insight gas market store.

The repository keeps per-chain gas-fee state in a zustand store
(`src/src/components/SimulationPanel.tsx`, gas store section) and feeds it
from a blockchain service (`src/src/services/blockchainService.ts`).
JavaScript numbers are modelled as rationals (`ℚ`), JS sequences as
`List`, partial update objects as records of `Option` fields.
-/

namespace GasGlide

/-- One gas observation, mirroring the store's GasPoint interface.
usdPrice is the optional field of the source interface. -/
structure GasPoint where
  timestamp : ℚ
  baseFee : ℚ
  priorityFee : ℚ
  totalFee : ℚ
  usdPrice : Option ℚ
deriving DecidableEq, Repr

/-- Per-chain record, mirroring the store's ChainData interface. -/
structure ChainData where
  name : String
  symbol : String
  rpcUrl : String
  baseFee : ℚ
  priorityFee : ℚ
  gasPrice : ℚ
  blockNumber : ℤ
  history : List GasPoint
  isConnected : Bool
  lastUpdate : ℚ
deriving DecidableEq, Repr

/-- The store's initialChainData constant (identity strings are irrelevant
to the claims and left empty as in the constant itself). -/
def initialChainData : ChainData :=
  { name := ""
    symbol := ""
    rpcUrl := ""
    baseFee := 0
    priorityFee := 0
    gasPrice := 0
    blockNumber := 0
    history := []
    isConnected := false
    lastUpdate := 0 }

/-- A Partial ChainData update object: fields absent from the JS object
literal are none. (Fields name/symbol/rpcUrl/history are never passed by
any caller of updateChainData and are omitted from the patch.) -/
structure ChainDataPatch where
  baseFee : Option ℚ
  priorityFee : Option ℚ
  gasPrice : Option ℚ
  blockNumber : Option ℤ
  isConnected : Option Bool
deriving DecidableEq, Repr

/-- Store operation updateChainData: spread-merges the patch into the
record and stamps lastUpdate with Date.now() (the now argument). -/
def updateChainData (c : ChainData) (d : ChainDataPatch) (now : ℚ) : ChainData :=
  { c with
    baseFee := d.baseFee.getD c.baseFee
    priorityFee := d.priorityFee.getD c.priorityFee
    gasPrice := d.gasPrice.getD c.gasPrice
    blockNumber := d.blockNumber.getD c.blockNumber
    isConnected := d.isConnected.getD c.isConnected
    lastUpdate := now }

/-- JavaScript Array.prototype.slice(-100): the suffix of the last 100
elements (the whole list when it is shorter). -/
def sliceLast100 (l : List GasPoint) : List GasPoint :=
  l.drop (l.length - 100)

/-- Store operation addGasPoint: appends the point to history and keeps
the last 100 points; no other field is touched. -/
def addGasPoint (c : ChainData) (p : GasPoint) : ChainData :=
  { c with history := sliceLast100 (c.history ++ [p]) }

/-- Result record of calculateTransactionCost. -/
structure TransactionCost where
  gasCostETH : ℚ
  gasCostUSD : ℚ
  totalCostETH : ℚ
  totalCostUSD : ℚ
deriving DecidableEq, Repr

/-- Store operation calculateTransactionCost: reads the chain record and
ethUsdPrice from the state (passed here explicitly) and derives the four
cost figures. -/
def calculateTransactionCost (c : ChainData) (ethUsdPrice : ℚ)
    (gasLimit : ℚ) (amount : ℚ) : TransactionCost :=
  let totalGasPrice := c.baseFee + c.priorityFee
  let gasCostETH := totalGasPrice * gasLimit / 1000000000
  let gasCostUSD := gasCostETH * ethUsdPrice
  let totalCostETH := gasCostETH + amount
  let totalCostUSD := totalCostETH * ethUsdPrice
  { gasCostETH := gasCostETH
    gasCostUSD := gasCostUSD
    totalCostETH := totalCostETH
    totalCostUSD := totalCostUSD }

/-- Chain record of Scenario B: baseFee 10 gwei, priorityFee 2 gwei. -/
def scenarioBChain : ChainData :=
  { initialChainData with baseFee := 10, priorityFee := 2, gasPrice := 12 }

/-- C1: with baseFee=10, priorityFee=2, ethUsdPrice=2000, a transaction of
gasLimit 21000 and amount 0.5 costs gasCostETH = 0.000252,
gasCostUSD = 0.504, totalCostETH = 0.500252, totalCostUSD = 1000.504; and
in general, whenever the chain record satisfies the store invariant
gasPrice = baseFee + priorityFee, the result satisfies
gasCostETH = gasPrice * gasLimit / 10^9, gasCostUSD = gasCostETH * price,
totalCostETH = gasCostETH + amount, totalCostUSD = totalCostETH * price. -/
theorem calculateTransactionCost_spec :
    (calculateTransactionCost scenarioBChain 2000 21000 (1/2) =
      { gasCostETH := 0.000252
        gasCostUSD := 0.504
        totalCostETH := 0.500252
        totalCostUSD := 1000.504 }) ∧
    (∀ (c : ChainData) (price g a : ℚ),
      c.gasPrice = c.baseFee + c.priorityFee →
      (calculateTransactionCost c price g a).gasCostETH = c.gasPrice * g / 10 ^ 9 ∧
      (calculateTransactionCost c price g a).gasCostUSD =
        (calculateTransactionCost c price g a).gasCostETH * price ∧
      (calculateTransactionCost c price g a).totalCostETH =
        (calculateTransactionCost c price g a).gasCostETH + a ∧
      (calculateTransactionCost c price g a).totalCostUSD =
        (calculateTransactionCost c price g a).totalCostETH * price) := by
  constructor
  · simp only [calculateTransactionCost, scenarioBChain, initialChainData,
      TransactionCost.mk.injEq]
    norm_num
  · intro c price g a h
    refine ⟨?_, rfl, rfl, rfl⟩
    simp only [calculateTransactionCost, h]
    norm_num

/-- Witness for C1: the general identities instantiated at Scenario B. -/
theorem calculateTransactionCost_spec_witness :
    (calculateTransactionCost scenarioBChain 2000 21000 (1/2)).gasCostETH =
      scenarioBChain.gasPrice * 21000 / 10 ^ 9 ∧
    (calculateTransactionCost scenarioBChain 2000 21000 (1/2)).gasCostUSD =
      (calculateTransactionCost scenarioBChain 2000 21000 (1/2)).gasCostETH * 2000 ∧
    (calculateTransactionCost scenarioBChain 2000 21000 (1/2)).totalCostETH =
      (calculateTransactionCost scenarioBChain 2000 21000 (1/2)).gasCostETH + 1/2 ∧
    (calculateTransactionCost scenarioBChain 2000 21000 (1/2)).totalCostUSD =
      (calculateTransactionCost scenarioBChain 2000 21000 (1/2)).totalCostETH * 2000 :=
  calculateTransactionCost_spec.2 scenarioBChain 2000 21000 (1/2)
    (by norm_num [scenarioBChain, initialChainData])

/-- C10: with ethUsdPrice = 0 (the uninitialized sentinel), the fiat
outputs are 0 while the native-currency outputs are computed normally. -/
theorem calculateTransactionCost_zero_price (c : ChainData) (g a : ℚ) :
    (calculateTransactionCost c 0 g a).gasCostUSD = 0 ∧
    (calculateTransactionCost c 0 g a).totalCostUSD = 0 ∧
    (calculateTransactionCost c 0 g a).gasCostETH =
      (c.baseFee + c.priorityFee) * g / 10 ^ 9 ∧
    (calculateTransactionCost c 0 g a).totalCostETH =
      (c.baseFee + c.priorityFee) * g / 10 ^ 9 + a := by
  simp only [calculateTransactionCost]
  norm_num

/-- Slicing twice keeps only the last-100 suffix of the extended list:
appending one point to an already-sliced history gives the same history as
slicing the full append log. -/
theorem sliceLast100_append (l : List GasPoint) (p : GasPoint) :
    sliceLast100 (sliceLast100 l ++ [p]) = sliceLast100 (l ++ [p]) := by
  unfold sliceLast100
  have h1 : (l.drop (l.length - 100) ++ [p]).length - 100 ≤
      (l.drop (l.length - 100)).length := by
    simp only [List.length_append, List.length_drop, List.length_cons,
      List.length_nil]
    omega
  have h2 : (l ++ [p]).length - 100 ≤ l.length := by
    simp only [List.length_append, List.length_cons, List.length_nil]
    omega
  rw [List.drop_append_of_le_length h1, List.drop_append_of_le_length h2,
    List.drop_drop]
  have h3 : l.length - 100 + ((l.drop (l.length - 100) ++ [p]).length - 100) =
      (l ++ [p]).length - 100 := by
    simp only [List.length_append, List.length_drop, List.length_cons,
      List.length_nil]
    omega
  rw [h3]

/-- Folding a whole sequence of addGasPoint calls over a chain record. -/
def applyGasPoints (c : ChainData) (ps : List GasPoint) : ChainData :=
  ps.foldl addGasPoint c

/-- The history after a sequence of appends starting from the empty
initial history is exactly the last-100 slice of the append log. -/
theorem applyGasPoints_history (ps : List GasPoint) :
    (applyGasPoints initialChainData ps).history = sliceLast100 ps := by
  induction ps using List.reverseRecOn with
  | nil => rfl
  | append_singleton l p ih =>
    unfold applyGasPoints at ih ⊢
    rw [List.foldl_append, List.foldl_cons, List.foldl_nil]
    show sliceLast100 ((List.foldl addGasPoint initialChainData l).history ++ [p]) =
      sliceLast100 (l ++ [p])
    rw [ih, sliceLast100_append]

/-- Claim C2: for every sequence of addGasPoint calls on one chain, the
history always has length at most 100, it always equals the last (at
most) 100 appended points in arrival order, and after more than 100
appends its length is exactly 100. -/
theorem addGasPoint_history_bound (ps : List GasPoint) :
    (applyGasPoints initialChainData ps).history.length ≤ 100 ∧
    (applyGasPoints initialChainData ps).history = ps.drop (ps.length - 100) ∧
    (100 < ps.length → (applyGasPoints initialChainData ps).history.length = 100) := by
  rw [applyGasPoints_history ps, sliceLast100]
  refine ⟨?_, rfl, ?_⟩
  · simp only [List.length_drop]; omega
  · intro h; simp only [List.length_drop]; omega

/-- All-zero gas point used as a concrete input. -/
def pt0 : GasPoint :=
  { timestamp := 0, baseFee := 0, priorityFee := 0, totalFee := 0, usdPrice := none }

/-- Witness for C2: after 101 appends the history length is exactly 100. -/
theorem addGasPoint_history_bound_witness :
    (applyGasPoints initialChainData (List.replicate 101 pt0)).history.length = 100 :=
  (addGasPoint_history_bound (List.replicate 101 pt0)).2.2 (by simp)

/-- The error path of the service's updateEthPrice: the catch block keeps
the stored price unless it is still the 0 sentinel, in which case it
stores the hardcoded fallback 2000. The catch swallows the failure, so
the operation is total and nothing is propagated. -/
def updateEthPriceOnError (ethUsdPrice : ℚ) : ℚ :=
  if ethUsdPrice = 0 then 2000 else ethUsdPrice

/-- Claim C7: on oracle failure the last-known price is kept whenever one
was ever established (price nonzero), and the hardcoded default 2000 is
stored only when the price is still the uninitialized sentinel 0. -/
theorem updateEthPrice_failure_policy (p : ℚ) :
    (p ≠ 0 → updateEthPriceOnError p = p) ∧
    (p = 0 → updateEthPriceOnError p = 2000) := by
  constructor
  · intro h; rw [updateEthPriceOnError, if_neg h]
  · intro h; rw [updateEthPriceOnError, if_pos h]

/-- Witness for C7: a live price 1500 is retained, the sentinel 0 falls
back to 2000. -/
theorem updateEthPrice_failure_policy_witness :
    updateEthPriceOnError 1500 = 1500 ∧ updateEthPriceOnError 0 = 2000 :=
  ⟨(updateEthPrice_failure_policy 1500).1 (by norm_num),
   (updateEthPrice_failure_policy 0).2 rfl⟩

/-- Counterexample for C8: a point stamped at time 5 (Date.now() of the
producing mutation) is appended, yet lastUpdate still holds the time of
the previous updateChainData call (0), not the append time. -/
theorem addGasPoint_lastUpdate_counterexample :
    (addGasPoint
        (updateChainData initialChainData
          { baseFee := some 10, priorityFee := some 2, gasPrice := some 12,
            blockNumber := some 1, isConnected := none } 0)
        { timestamp := 5, baseFee := 10, priorityFee := 2, totalFee := 12,
          usdPrice := none }).lastUpdate ≠
      ({ timestamp := 5, baseFee := 10, priorityFee := 2, totalFee := 12,
          usdPrice := none } : GasPoint).timestamp := by
  show (0 : ℚ) ≠ 5
  norm_num

/-- Claim C8 (amended): updateChainData stamps lastUpdate with the time of
the call, but addGasPoint leaves lastUpdate untouched, so after an append
lastUpdate still refers to the most recent updateChainData call. -/
theorem lastUpdate_stamping (c : ChainData) (d : ChainDataPatch) (now : ℚ)
    (p : GasPoint) :
    (updateChainData c d now).lastUpdate = now ∧
    (addGasPoint c p).lastUpdate = c.lastUpdate :=
  ⟨rfl, rfl⟩

/-- The store's SimulationData record. -/
structure SimulationData where
  amount : String
  gasLimit : ℤ
  chain : String
deriving DecidableEq, Repr

/-- A Partial SimulationData update object. -/
structure SimulationPatch where
  amount : Option String
  gasLimit : Option ℤ
  chain : Option String
deriving DecidableEq, Repr

/-- Store operation setSimulation: spread-merges the patch. -/
def setSimulation (s : SimulationData) (d : SimulationPatch) : SimulationData :=
  { amount := d.amount.getD s.amount
    gasLimit := d.gasLimit.getD s.gasLimit
    chain := d.chain.getD s.chain }

/-- The store's initial simulation record. -/
def initialSimulation : SimulationData :=
  { amount := "0.1", gasLimit := 21000, chain := "ethereum" }

/-- The panel's gas-limit input handler: parseInt(value) with the JS
falsy-coalescing default (parseInt(value) || 21000). The parse result is
none when parseInt returns NaN; the || replaces both NaN and 0. -/
def handleGasLimitChange (parsed : Option ℤ) : ℤ :=
  match parsed with
  | some n => if n = 0 then 21000 else n
  | none => 21000

/-- Counterexample for C9: the input string "5" parses to 5, which is
truthy, so the handler stores gasLimit 5 through setSimulation — below
the claimed minimum of 21000. -/
theorem gasLimit_minimum_counterexample :
    (setSimulation initialSimulation
        { amount := none, gasLimit := some (handleGasLimitChange (some 5)),
          chain := none }).gasLimit < 21000 := by
  decide

/-- Claim C9 (amended): gasLimit starts at 21000, and the input handler
substitutes the default 21000 exactly when the input fails to parse or
parses to 0; any other parsed integer — including values below 21000 —
is stored unchanged, so 21000 is a default, not an enforced minimum. -/
theorem handleGasLimitChange_default :
    initialSimulation.gasLimit = 21000 ∧
    ∀ parsed : Option ℤ,
      handleGasLimitChange parsed = 21000 ∨
      (∃ n, parsed = some n ∧ n ≠ 0 ∧ handleGasLimitChange parsed = n) := by
  refine ⟨rfl, ?_⟩
  intro parsed
  match parsed with
  | none => exact Or.inl rfl
  | some n =>
    by_cases h : n = 0
    · exact Or.inl (by rw [handleGasLimitChange, if_pos h])
    · exact Or.inr ⟨n, rfl, h, by rw [handleGasLimitChange, if_neg h]⟩

/-- The 24-hour window width in milliseconds (24 * 60 * 60 * 1000). -/
def dayMillis : ℚ := 24 * 60 * 60 * 1000

/-- Number of iterations of the bucket loop
for (time = intervalStart; time <= now; time += interval): the loop runs
floor(dayMillis / interval) + 1 times for a positive interval, since
now - intervalStart = dayMillis. -/
def bucketCount (interval : ℚ) : ℕ := (⌊dayMillis / interval⌋ + 1).toNat

/-- Store operation getChartData: keeps the last 24 hours of history,
walks fixed-width buckets from (now - 24h), and emits one averaged point
per non-empty bucket (empty buckets are skipped). The emitted object has
no usdPrice field. -/
def getChartData (history : List GasPoint) (now : ℚ) (interval : ℚ) :
    List GasPoint :=
  if history = [] then [] else
  let intervalStart := now - dayMillis
  let filteredHistory := history.filter (fun p => decide (intervalStart ≤ p.timestamp))
  (List.range (bucketCount interval)).filterMap (fun k : ℕ =>
    let time := intervalStart + (k : ℚ) * interval
    let intervalPoints := filteredHistory.filter
      (fun p => decide (time ≤ p.timestamp ∧ p.timestamp < time + interval))
    if intervalPoints.isEmpty then none
    else some
      { timestamp := time
        baseFee := (intervalPoints.map GasPoint.baseFee).sum / intervalPoints.length
        priorityFee := (intervalPoints.map GasPoint.priorityFee).sum / intervalPoints.length
        totalFee := (intervalPoints.map GasPoint.totalFee).sum / intervalPoints.length
        usdPrice := none })

/-- The raw points backing the bucket that starts at time t: the points
of the trailing 24-hour window whose timestamp falls in [t, t + interval). -/
def bucketOf (history : List GasPoint) (now interval t : ℚ) : List GasPoint :=
  (history.filter (fun p => decide (now - dayMillis ≤ p.timestamp))).filter
    (fun p => decide (t ≤ p.timestamp ∧ p.timestamp < t + interval))

/-- A filterMap over an index range where exactly one index yields a
value produces the singleton of that value. -/
theorem filterMap_range_single {α : Type} (f : ℕ → Option α) (n m : ℕ) (q : α)
    (hm : m < n) (hfm : f m = some q) (hk : ∀ k, k < n → k ≠ m → f k = none) :
    (List.range n).filterMap f = [q] := by
  induction n with
  | zero => omega
  | succ n ih =>
    rw [List.range_succ, List.filterMap_append]
    rcases Nat.lt_succ_iff_lt_or_eq.1 hm with h | h
    · rw [ih h (fun k hk1 hk2 => hk k (Nat.lt_succ_of_lt hk1) hk2)]
      have hn : f n = none := hk n (Nat.lt_succ_self n) (by omega)
      simp [hn]
    · have h0 : (List.range n).filterMap f = [] := by
        rw [List.filterMap_eq_nil_iff]
        intro a ha
        have ha' : a < n := List.mem_range.1 ha
        exact hk a (by omega) (by omega)
      have hq : f n = some q := h ▸ hfm
      simp [h0, hq]

/-- With the default 15-minute interval the bucket loop runs 97 times. -/
theorem bucketCount_default : bucketCount 900000 = 97 := by
  have h : (⌊dayMillis / 900000⌋ + 1) = 97 := by
    rw [dayMillis]; norm_num
  rw [bucketCount, h]; rfl

/-- When every history point has a timestamp in [0, 800000] and now is
900000, only the bucket starting at 0 (index 95) is non-empty and the
aggregation collapses the whole history to one averaged point. -/
theorem getChartData_singleBucket (history : List GasPoint) (hne : history ≠ [])
    (hts : ∀ p ∈ history, 0 ≤ p.timestamp ∧ p.timestamp ≤ 800000) :
    getChartData history 900000 900000 =
      [{ timestamp := 0
         baseFee := (history.map GasPoint.baseFee).sum / history.length
         priorityFee := (history.map GasPoint.priorityFee).sum / history.length
         totalFee := (history.map GasPoint.totalFee).sum / history.length
         usdPrice := none }] := by
  simp only [getChartData, bucketCount_default]
  rw [if_neg hne]
  have hfil : history.filter
      (fun p => decide ((900000 : ℚ) - dayMillis ≤ p.timestamp)) = history := by
    rw [List.filter_eq_self]
    intro p hp
    have h := (hts p hp).1
    simp only [decide_eq_true_eq, dayMillis]
    linarith
  rw [hfil]
  apply filterMap_range_single _ 97 95 _ (by norm_num)
  · have ht : (900000 : ℚ) - dayMillis + ((95 : ℕ) : ℚ) * 900000 = 0 := by
      rw [dayMillis]; push_cast; ring
    rw [ht]
    have hfil2 : history.filter
        (fun p => decide ((0 : ℚ) ≤ p.timestamp ∧ p.timestamp < 0 + 900000)) =
        history := by
      rw [List.filter_eq_self]
      intro p hp
      have h1 := (hts p hp).1
      have h2 := (hts p hp).2
      simp only [decide_eq_true_eq]
      constructor <;> linarith
    rw [hfil2]
    rw [if_neg (by intro hcon; exact hne (by simpa using hcon))]
  · intro k hk1 hk2
    have hempty : history.filter
        (fun p => decide ((900000 : ℚ) - dayMillis + (k : ℚ) * 900000 ≤ p.timestamp ∧
          p.timestamp < 900000 - dayMillis + (k : ℚ) * 900000 + 900000)) = [] := by
      rw [List.filter_eq_nil_iff]
      intro p hp
      have h1 := (hts p hp).1
      have h2 := (hts p hp).2
      simp only [decide_eq_true_eq, dayMillis]
      rintro ⟨ha, hb⟩
      rcases (by omega : k ≤ 94 ∨ k = 96) with hc | hc
      · have hkq : (k : ℚ) ≤ 94 := by exact_mod_cast hc
        nlinarith
      · have hkq : (k : ℚ) = 96 := by exact_mod_cast hc
        rw [hkq] at ha
        nlinarith
    rw [hempty]
    rfl

/-- The three raw points of Scenario A: totalFee 15, 20, 25 at
timestamps 0, 400000 and 800000 ms, all consistent with
totalFee = baseFee + priorityFee. -/
def scenarioAHistory : List GasPoint :=
  [{ timestamp := 0, baseFee := 10, priorityFee := 5, totalFee := 15, usdPrice := none },
   { timestamp := 400000, baseFee := 15, priorityFee := 5, totalFee := 20, usdPrice := none },
   { timestamp := 800000, baseFee := 20, priorityFee := 5, totalFee := 25, usdPrice := none }]

/-- Evaluation of getChartData on the Scenario A history: one point, the
arithmetic mean of the three raw points, in the bucket starting at 0. -/
theorem getChartData_scenarioA_eval :
    getChartData scenarioAHistory 900000 900000 =
      [{ timestamp := 0, baseFee := 15, priorityFee := 5, totalFee := 20,
         usdPrice := none }] := by
  have hts : ∀ p ∈ scenarioAHistory, 0 ≤ p.timestamp ∧ p.timestamp ≤ 800000 := by
    intro p hp
    simp only [scenarioAHistory, List.mem_cons, List.not_mem_nil, or_false] at hp
    rcases hp with rfl | rfl | rfl <;> constructor <;> norm_num
  rw [getChartData_singleBucket scenarioAHistory (by simp [scenarioAHistory]) hts]
  simp only [scenarioAHistory, List.map_cons, List.map_nil, List.sum_cons,
    List.sum_nil, List.length_cons, List.length_nil, List.cons.injEq,
    GasPoint.mk.injEq]
  norm_num

/-- Claim C5: with chain history of three points of totalFee 15, 20, 25 at
0, 400000, 800000 ms inside the single 900000 ms bucket of the 24-hour
window ending at 900000, getChartData returns exactly one point whose fee
fields are the arithmetic means — totalFee 20. -/
theorem getChartData_scenarioA :
    getChartData scenarioAHistory 900000 900000 =
      [{ timestamp := 0, baseFee := 15, priorityFee := 5, totalFee := 20,
         usdPrice := none }] :=
  getChartData_scenarioA_eval

/-- Claim C4 (amended): every point returned by getChartData is backed by
a non-empty bucket of raw points, and its totalFee is the arithmetic mean
of the raw points' totalFee field; that mean coincides with the mean of
baseFee + priorityFee whenever every raw point satisfies
totalFee = baseFee + priorityFee (as every point the system constructs
does). -/
theorem getChartData_bucket_mean (history : List GasPoint) (now interval : ℚ)
    (q : GasPoint) (hq : q ∈ getChartData history now interval) :
    bucketOf history now interval q.timestamp ≠ [] ∧
    q.totalFee =
      ((bucketOf history now interval q.timestamp).map GasPoint.totalFee).sum /
        ((bucketOf history now interval q.timestamp).length : ℚ) ∧
    ((∀ p ∈ history, p.totalFee = p.baseFee + p.priorityFee) →
      q.totalFee =
        ((bucketOf history now interval q.timestamp).map
            (fun p => p.baseFee + p.priorityFee)).sum /
          ((bucketOf history now interval q.timestamp).length : ℚ)) := by
  by_cases hh : history = []
  · rw [getChartData, if_pos hh] at hq
    exact absurd hq (List.not_mem_nil q)
  simp only [getChartData] at hq
  rw [if_neg hh] at hq
  rcases List.mem_filterMap.1 hq with ⟨k, hk, hfk⟩
  by_cases hemp : ((history.filter (fun p => decide (now - dayMillis ≤ p.timestamp))).filter
      (fun p => decide (now - dayMillis + (k : ℚ) * interval ≤ p.timestamp ∧
        p.timestamp < now - dayMillis + (k : ℚ) * interval + interval))).isEmpty
  · rw [if_pos hemp] at hfk
    cases hfk
  · rw [if_neg hemp] at hfk
    have hqe := Option.some.inj hfk
    subst hqe
    refine ⟨?_, rfl, ?_⟩
    · intro hnil
      rw [show bucketOf history now interval
          (now - dayMillis + (k : ℚ) * interval) =
          (history.filter (fun p => decide (now - dayMillis ≤ p.timestamp))).filter
            (fun p => decide (now - dayMillis + (k : ℚ) * interval ≤ p.timestamp ∧
              p.timestamp < now - dayMillis + (k : ℚ) * interval + interval))
          from rfl] at hnil
      rw [hnil] at hemp
      exact hemp rfl
    · intro hwf
      have hmap : ((bucketOf history now interval
            (now - dayMillis + (k : ℚ) * interval)).map GasPoint.totalFee) =
          ((bucketOf history now interval
            (now - dayMillis + (k : ℚ) * interval)).map
            (fun p => p.baseFee + p.priorityFee)) := by
        apply List.map_congr_left
        intro p hp
        rw [bucketOf] at hp
        exact hwf p (List.mem_filter.1 (List.mem_filter.1 hp).1).1
      rw [← hmap]
      rfl

/-- Witness for C4: the averaged point of Scenario A is backed by the
non-empty bucket starting at 0 and its totalFee is the bucket mean. -/
theorem getChartData_bucket_mean_witness :
    bucketOf scenarioAHistory 900000 900000
      ({ timestamp := 0, baseFee := 15, priorityFee := 5, totalFee := 20,
         usdPrice := none } : GasPoint).timestamp ≠ [] ∧
    ({ timestamp := 0, baseFee := 15, priorityFee := 5, totalFee := 20,
       usdPrice := none } : GasPoint).totalFee =
      ((bucketOf scenarioAHistory 900000 900000
          ({ timestamp := 0, baseFee := 15, priorityFee := 5, totalFee := 20,
             usdPrice := none } : GasPoint).timestamp).map GasPoint.totalFee).sum /
        ((bucketOf scenarioAHistory 900000 900000
          ({ timestamp := 0, baseFee := 15, priorityFee := 5, totalFee := 20,
             usdPrice := none } : GasPoint).timestamp).length : ℚ) ∧
    ((∀ p ∈ scenarioAHistory, p.totalFee = p.baseFee + p.priorityFee) →
      ({ timestamp := 0, baseFee := 15, priorityFee := 5, totalFee := 20,
         usdPrice := none } : GasPoint).totalFee =
        ((bucketOf scenarioAHistory 900000 900000
            ({ timestamp := 0, baseFee := 15, priorityFee := 5, totalFee := 20,
               usdPrice := none } : GasPoint).timestamp).map
            (fun p => p.baseFee + p.priorityFee)).sum /
          ((bucketOf scenarioAHistory 900000 900000
            ({ timestamp := 0, baseFee := 15, priorityFee := 5, totalFee := 20,
               usdPrice := none } : GasPoint).timestamp).length : ℚ)) :=
  getChartData_bucket_mean scenarioAHistory 900000 900000 _
    (by rw [getChartData_scenarioA_eval]; exact List.mem_singleton.2 rfl)

/-- A malformed raw point whose stored totalFee (5) differs from
baseFee + priorityFee (2); addGasPoint accepts arbitrary points, so such
a history state is expressible. -/
def ptCE : GasPoint :=
  { timestamp := 0, baseFee := 1, priorityFee := 1, totalFee := 5, usdPrice := none }

/-- Counterexample for C4 as stated: getChartData averages the raw
totalFee field, so on a history whose point has totalFee 5 but
baseFee + priorityFee = 2, the returned totalFee (5) differs from the
bucket mean of baseFee + priorityFee (2) by 3, far beyond the 1e-9
tolerance. -/
theorem getChartData_mean_counterexample :
    ¬ (∀ q ∈ getChartData [ptCE] 900000 900000,
        |q.totalFee - ((bucketOf [ptCE] 900000 900000 q.timestamp).map
            (fun p => p.baseFee + p.priorityFee)).sum /
          ((bucketOf [ptCE] 900000 900000 q.timestamp).length : ℚ)| ≤
        1 / 1000000000) := by
  intro hall
  have heval : getChartData [ptCE] 900000 900000 = [ptCE] := by
    have h := getChartData_singleBucket [ptCE] (by simp)
      (by intro p hp
          rw [List.mem_singleton] at hp
          subst hp
          constructor <;> norm_num [ptCE])
    rw [h]
    simp only [ptCE, List.map_cons, List.map_nil, List.sum_cons, List.sum_nil,
      List.length_cons, List.length_nil, List.cons.injEq, GasPoint.mk.injEq]
    norm_num
  have hmem : ptCE ∈ getChartData [ptCE] 900000 900000 := by
    rw [heval]
    exact List.mem_singleton.2 rfl
  have h2 := hall _ hmem
  have hb : bucketOf [ptCE] 900000 900000 ptCE.timestamp = [ptCE] := by
    show ([ptCE].filter (fun p => decide ((900000 : ℚ) - dayMillis ≤ p.timestamp))).filter
      (fun p => decide ((0 : ℚ) ≤ p.timestamp ∧ p.timestamp < 0 + 900000)) = [ptCE]
    have ha : [ptCE].filter
        (fun p => decide ((900000 : ℚ) - dayMillis ≤ p.timestamp)) = [ptCE] := by
      rw [List.filter_eq_self]
      intro p hp
      rw [List.mem_singleton] at hp
      subst hp
      simp only [decide_eq_true_eq, ptCE, dayMillis]
      norm_num
    rw [ha, List.filter_eq_self]
    intro p hp
    rw [List.mem_singleton] at hp
    subst hp
    simp only [decide_eq_true_eq, ptCE]
    norm_num
  rw [hb] at h2
  simp only [ptCE, List.map_cons, List.map_nil, List.sum_cons, List.sum_nil,
    List.length_cons, List.length_nil] at h2
  rw [abs_le] at h2
  have h3 := h2.2
  norm_num at h3

/-- Per-chain randomized-walk parameters of updateSimulatedData. -/
structure SimConfig where
  base : ℚ
  priority : ℚ
  variance : ℚ
deriving DecidableEq, Repr

/-- ethereum: { base: 15, priority: 2, variance: 5 }. -/
def ethereumConfig : SimConfig := { base := 15, priority := 2, variance := 5 }

/-- polygon: { base: 35, priority: 30, variance: 10 }. -/
def polygonConfig : SimConfig := { base := 35, priority := 30, variance := 10 }

/-- arbitrum: { base: 0.1, priority: 0.05, variance: 0.05 }. -/
def arbitrumConfig : SimConfig := { base := 0.1, priority := 0.05, variance := 0.05 }

/-- Raw simulated base fee: config.base + (Math.random() - 0.5) * variance,
with r1 the Math.random() draw. -/
def simRawBaseFee (cfg : SimConfig) (r1 : ℚ) : ℚ :=
  cfg.base + (r1 - 0.5) * cfg.variance

/-- Raw simulated priority fee:
config.priority + (Math.random() - 0.5) * (variance * 0.3). -/
def simRawPriorityFee (cfg : SimConfig) (r2 : ℚ) : ℚ :=
  cfg.priority + (r2 - 0.5) * (cfg.variance * 0.3)

/-- The gas point constructed by updateSimulatedData: clamped fields
Math.max(0.01, baseFee), Math.max(0.01, priorityFee),
Math.max(0.02, baseFee + priorityFee). -/
def simGasPoint (cfg : SimConfig) (r1 r2 nowT : ℚ) (price : Option ℚ) : GasPoint :=
  { timestamp := nowT
    baseFee := max 0.01 (simRawBaseFee cfg r1)
    priorityFee := max 0.01 (simRawPriorityFee cfg r2)
    totalFee := max 0.02 (simRawBaseFee cfg r1 + simRawPriorityFee cfg r2)
    usdPrice := price }

/-- For Math.random() draws (0 ≤ r), the raw simulated fees of all three
chain configs stay above the 0.01 clamp. -/
theorem simRaw_lower_bounds (cfg : SimConfig)
    (hcfg : cfg = ethereumConfig ∨ cfg = polygonConfig ∨ cfg = arbitrumConfig)
    (r1 r2 : ℚ) (h1 : 0 ≤ r1) (h2 : 0 ≤ r2) :
    0.01 ≤ simRawBaseFee cfg r1 ∧ 0.01 ≤ simRawPriorityFee cfg r2 := by
  rcases hcfg with rfl | rfl | rfl <;>
    (constructor <;>
      (simp only [simRawBaseFee, simRawPriorityFee, ethereumConfig, polygonConfig,
        arbitrumConfig]
       nlinarith))

/-- The clamps of updateSimulatedData never bind, so the constructed
simulated point satisfies totalFee = baseFee + priorityFee. -/
theorem simGasPoint_totalFee (cfg : SimConfig)
    (hcfg : cfg = ethereumConfig ∨ cfg = polygonConfig ∨ cfg = arbitrumConfig)
    (r1 r2 nowT : ℚ) (price : Option ℚ) (h1 : 0 ≤ r1) (h2 : 0 ≤ r2) :
    (simGasPoint cfg r1 r2 nowT price).totalFee =
      (simGasPoint cfg r1 r2 nowT price).baseFee +
      (simGasPoint cfg r1 r2 nowT price).priorityFee := by
  obtain ⟨hb, hp⟩ := simRaw_lower_bounds cfg hcfg r1 r2 h1 h2
  show max 0.02 (simRawBaseFee cfg r1 + simRawPriorityFee cfg r2) =
    max 0.01 (simRawBaseFee cfg r1) + max 0.01 (simRawPriorityFee cfg r2)
  rw [max_eq_right hb, max_eq_right hp, max_eq_right (by norm_num at hb hp ⊢; linarith)]

/-- The partial update passed by setupProvider and setupDemoData: only
the connection status. -/
def patchConn (b : Bool) : ChainDataPatch :=
  { baseFee := none, priorityFee := none, gasPrice := none, blockNumber := none,
    isConnected := some b }

/-- The partial update passed by handleNewBlock: the extracted fees plus
gasPrice set to the extracted totalFee = baseFee + priorityFee. -/
def patchBlockUpdate (baseFee priorityFee : ℚ) (bn : ℤ) : ChainDataPatch :=
  { baseFee := some baseFee
    priorityFee := some priorityFee
    gasPrice := some (baseFee + priorityFee)
    blockNumber := some bn
    isConnected := none }

/-- The partial update passed by updateSimulatedData: the clamped point
fields plus gasPrice set to the point's (clamped) totalFee. -/
def patchSimUpdate (cfg : SimConfig) (r1 r2 nowT : ℚ) (price : Option ℚ)
    (bn : ℤ) : ChainDataPatch :=
  { baseFee := some (simGasPoint cfg r1 r2 nowT price).baseFee
    priorityFee := some (simGasPoint cfg r1 r2 nowT price).priorityFee
    gasPrice := some (simGasPoint cfg r1 r2 nowT price).totalFee
    blockNumber := some bn
    isConnected := none }

/-- One mutation of a chain record by the code base: a connection-status
update, a live-block update, a simulated-tick update (with Math.random()
draws in [0, 1)), or a history append. These are all the call sites of
updateChainData and addGasPoint in the repository. -/
inductive Step : ChainData → ChainData → Prop where
  | connStatus (c : ChainData) (b : Bool) (now : ℚ) :
      Step c (updateChainData c (patchConn b) now)
  | blockUpdate (c : ChainData) (baseFee priorityFee : ℚ) (bn : ℤ) (now : ℚ) :
      Step c (updateChainData c (patchBlockUpdate baseFee priorityFee bn) now)
  | simUpdate (c : ChainData) (cfg : SimConfig) (r1 r2 nowT : ℚ)
      (price : Option ℚ) (bn : ℤ) (now : ℚ)
      (hcfg : cfg = ethereumConfig ∨ cfg = polygonConfig ∨ cfg = arbitrumConfig)
      (h1 : 0 ≤ r1) (h1' : r1 < 1) (h2 : 0 ≤ r2) (h2' : r2 < 1) :
      Step c (updateChainData c (patchSimUpdate cfg r1 r2 nowT price bn) now)
  | appendPoint (c : ChainData) (p : GasPoint) : Step c (addGasPoint c p)

/-- Chain records reachable from the initial record through the
repository's mutations. -/
inductive Reachable : ChainData → Prop where
  | init : Reachable initialChainData
  | step {c c' : ChainData} : Reachable c → Step c c' → Reachable c'

/-- Claim C3: after every updateChainData call made by the code base (and
untouched by appends), gasPrice equals baseFee + priorityFee — every
caller that sets the fee fields also sets gasPrice to their sum, and no
caller sets gasPrice independently. -/
theorem gasPrice_invariant (c : ChainData) (h : Reachable c) :
    c.gasPrice = c.baseFee + c.priorityFee := by
  induction h with
  | init =>
    show (0 : ℚ) = 0 + 0
    norm_num
  | step hr hs ih =>
    cases hs with
    | connStatus b now => simpa [updateChainData, patchConn] using ih
    | blockUpdate baseFee priorityFee bn now =>
      simp [updateChainData, patchBlockUpdate]
    | simUpdate cfg r1 r2 nowT price bn now hcfg h1 h1' h2 h2' =>
      simp only [updateChainData, patchSimUpdate, Option.getD_some]
      exact simGasPoint_totalFee cfg hcfg r1 r2 nowT price h1 h2
    | appendPoint p => simpa [addGasPoint] using ih

/-- Witness for C3: the record after one live-block update with extracted
fees 10 and 2 carries gasPrice 12 = 10 + 2. -/
theorem gasPrice_invariant_witness :
    (updateChainData initialChainData (patchBlockUpdate 10 2 7) 50).gasPrice =
      (updateChainData initialChainData (patchBlockUpdate 10 2 7) 50).baseFee +
      (updateChainData initialChainData (patchBlockUpdate 10 2 7) 50).priorityFee :=
  gasPrice_invariant _
    (Reachable.step Reachable.init (Step.blockUpdate initialChainData 10 2 7 50))

/-- The fee extraction of handleNewBlock: baseFee from the block's
baseFeePerGas (in gwei) when present, default priority fee 2 gwei; for
polygon/arbitrum, when the getFeeData query succeeds both fees are
replaced by the 80%/20% split of the aggregate gas price. -/
def extractedFees (blockBaseFeeGwei : Option ℚ) (polyOrArb : Bool)
    (feeGasPriceGwei : Option ℚ) : ℚ × ℚ :=
  let baseFee := blockBaseFeeGwei.getD 0
  let priorityFee : ℚ := 2
  if polyOrArb then
    match feeGasPriceGwei with
    | some g => (g * 0.8, g * 0.2)
    | none => (baseFee, priorityFee)
  else (baseFee, priorityFee)

/-- The gas point constructed by handleNewBlock from the extracted fees:
totalFee is their sum by construction. -/
def blockGasPoint (nowT : ℚ) (fees : ℚ × ℚ) (price : Option ℚ) : GasPoint :=
  { timestamp := nowT
    baseFee := fees.1
    priorityFee := fees.2
    totalFee := fees.1 + fees.2
    usdPrice := price }

/-- Claim C6: every gas point appended to a history — constructed either
by handleNewBlock (from non-negative chain-reported fee data) or by
updateSimulatedData (from Math.random() draws in [0, 1)) — satisfies
totalFee = baseFee + priorityFee with all three fee fields non-negative. -/
theorem gasPoint_wellFormed (nowT : ℚ) (price : Option ℚ)
    (bb : Option ℚ) (poly : Bool) (fg : Option ℚ)
    (cfg : SimConfig) (r1 r2 : ℚ)
    (hbb : ∀ x, bb = some x → 0 ≤ x) (hfg : ∀ x, fg = some x → 0 ≤ x)
    (hcfg : cfg = ethereumConfig ∨ cfg = polygonConfig ∨ cfg = arbitrumConfig)
    (h1 : 0 ≤ r1) (h1' : r1 < 1) (h2 : 0 ≤ r2) (h2' : r2 < 1) :
    ((blockGasPoint nowT (extractedFees bb poly fg) price).totalFee =
        (blockGasPoint nowT (extractedFees bb poly fg) price).baseFee +
        (blockGasPoint nowT (extractedFees bb poly fg) price).priorityFee ∧
      0 ≤ (blockGasPoint nowT (extractedFees bb poly fg) price).baseFee ∧
      0 ≤ (blockGasPoint nowT (extractedFees bb poly fg) price).priorityFee ∧
      0 ≤ (blockGasPoint nowT (extractedFees bb poly fg) price).totalFee) ∧
    ((simGasPoint cfg r1 r2 nowT price).totalFee =
        (simGasPoint cfg r1 r2 nowT price).baseFee +
        (simGasPoint cfg r1 r2 nowT price).priorityFee ∧
      0 ≤ (simGasPoint cfg r1 r2 nowT price).baseFee ∧
      0 ≤ (simGasPoint cfg r1 r2 nowT price).priorityFee ∧
      0 ≤ (simGasPoint cfg r1 r2 nowT price).totalFee) := by
  have hb0 : 0 ≤ bb.getD 0 := by
    cases bb with
    | none => norm_num
    | some x => simpa using hbb x rfl
  have hfees : 0 ≤ (extractedFees bb poly fg).1 ∧ 0 ≤ (extractedFees bb poly fg).2 := by
    cases poly with
    | false => exact ⟨by simpa [extractedFees] using hb0, by norm_num [extractedFees]⟩
    | true =>
      cases fg with
      | none => exact ⟨by simpa [extractedFees] using hb0, by norm_num [extractedFees]⟩
      | some g =>
        have hg := hfg g rfl
        refine ⟨?_, ?_⟩
        · have he : (extractedFees bb true (some g)).1 = g * 0.8 := by
            simp [extractedFees]
          rw [he]
          nlinarith
        · have he : (extractedFees bb true (some g)).2 = g * 0.2 := by
            simp [extractedFees]
          rw [he]
          nlinarith
  refine ⟨⟨rfl, hfees.1, hfees.2, ?_⟩, ?_, ?_, ?_, ?_⟩
  · show (0 : ℚ) ≤ (extractedFees bb poly fg).1 + (extractedFees bb poly fg).2
    have ha := hfees.1
    have hb := hfees.2
    linarith
  · exact simGasPoint_totalFee cfg hcfg r1 r2 nowT price h1 h2
  · show (0 : ℚ) ≤ max 0.01 (simRawBaseFee cfg r1)
    have : (0.01 : ℚ) ≤ max 0.01 (simRawBaseFee cfg r1) := le_max_left _ _
    push_cast at this ⊢
    linarith
  · show (0 : ℚ) ≤ max 0.01 (simRawPriorityFee cfg r2)
    have : (0.01 : ℚ) ≤ max 0.01 (simRawPriorityFee cfg r2) := le_max_left _ _
    push_cast at this ⊢
    linarith
  · show (0 : ℚ) ≤ max 0.02 (simRawBaseFee cfg r1 + simRawPriorityFee cfg r2)
    have : (0.02 : ℚ) ≤ max 0.02 (simRawBaseFee cfg r1 + simRawPriorityFee cfg r2) :=
      le_max_left _ _
    push_cast at this ⊢
    linarith

/-- Witness for C6: a live ethereum block with baseFeePerGas 10 gwei and
a simulated ethereum tick with both random draws at 1/2. -/
theorem gasPoint_wellFormed_witness :
    ((blockGasPoint 1 (extractedFees (some 10) false none) none).totalFee =
        (blockGasPoint 1 (extractedFees (some 10) false none) none).baseFee +
        (blockGasPoint 1 (extractedFees (some 10) false none) none).priorityFee ∧
      0 ≤ (blockGasPoint 1 (extractedFees (some 10) false none) none).baseFee ∧
      0 ≤ (blockGasPoint 1 (extractedFees (some 10) false none) none).priorityFee ∧
      0 ≤ (blockGasPoint 1 (extractedFees (some 10) false none) none).totalFee) ∧
    ((simGasPoint ethereumConfig (1/2) (1/2) 1 none).totalFee =
        (simGasPoint ethereumConfig (1/2) (1/2) 1 none).baseFee +
        (simGasPoint ethereumConfig (1/2) (1/2) 1 none).priorityFee ∧
      0 ≤ (simGasPoint ethereumConfig (1/2) (1/2) 1 none).baseFee ∧
      0 ≤ (simGasPoint ethereumConfig (1/2) (1/2) 1 none).priorityFee ∧
      0 ≤ (simGasPoint ethereumConfig (1/2) (1/2) 1 none).totalFee) :=
  gasPoint_wellFormed 1 none (some 10) false none ethereumConfig (1/2) (1/2)
    (by rintro x hx; injection hx with h; rw [← h]; norm_num)
    (by rintro x hx; cases hx)
    (Or.inl rfl)
    (by norm_num) (by norm_num) (by norm_num) (by norm_num)

end GasGlide
